import Mathlib

/-!
# PrivateShare (src/task/PrivateShare.mjs)

A shallow embedding of the class `PrivateShare`.

* JavaScript strings are Lean strings, `+` on strings is `++`.
* The three functions of the `ethers` library that the class calls
  (`ethers.utils.toUtf8Bytes`, `ethers.utils.keccak256`,
  `ethers.utils.computeAddress`) are third-party code; they are taken as
  parameters, bundled in `Ethers`, and treated as total pure functions.
* A method call carries its receiver `this` explicitly.  Every public method
  of the class is `static`, every `#helper` is a private *instance* method, and
  the public methods reach the helpers through `this.#helper(...)`.  Reading a
  private name from an object that does not carry it throws a `TypeError`
  (ECMAScript `PrivateGet`); `privateGet` embeds that check.
* A thrown exception is the `error` branch of `Except JsError`.
-/

namespace PrivateShare

/-- An exception thrown while the class runs. The source has no `throw`
statement; the only exception its own text can raise is the `TypeError` of a
failed private-name lookup. -/
inductive JsError where
  | typeError
  deriving DecidableEq, Repr

/-- The `name` property of a thrown error. -/
def JsError.name : JsError → String
  | .typeError => "TypeError"

/-- The value bound to `this` while a method of the class runs. -/
inductive Receiver where
  /-- The class constructor itself: `PrivateShare.method(...)`. -/
  | classConstructor
  /-- An object made by `new PrivateShare()`: `PrivateShare.method.call(obj, ...)`. -/
  | classInstance (id : Nat)
  /-- A detached call, `const f = PrivateShare.method; f(...)`: class bodies
  are strict code, so `this` is `undefined`. -/
  | undefinedThis
  deriving DecidableEq, Repr

/-- Whether the receiver carries the private instance methods of the class.
They are installed on an object when the constructor initialises it, so only
instances carry them; the constructor function carries only static private
names, and the class declares none. -/
def Receiver.hasBrand : Receiver → Bool
  | .classInstance _ => true
  | .classConstructor => false
  | .undefinedThis => false

/-- The lookup `this.#helper` that precedes every helper call. -/
def privateGet (this : Receiver) : Except JsError Unit :=
  if this.hasBrand then .ok () else .error .typeError

/-- The part of the `ethers` library the class uses. -/
structure Ethers where
  /-- The function `ethers.utils.toUtf8Bytes`. -/
  toUtf8Bytes : String → List Nat
  /-- The function `ethers.utils.keccak256`, returning a hex string. -/
  keccak256 : List Nat → String
  /-- The function `ethers.utils.computeAddress`. -/
  computeAddress : String → String

/-- The record `{ privateKey, publicKey }`. -/
structure KeyPair where
  privateKey : String
  publicKey : String
  deriving DecidableEq, Repr

/-- The record `{ isRegistered }`. -/
structure Registration where
  isRegistered : Bool
  deriving DecidableEq, Repr

/-- The record `{ txHash }`. -/
structure TxHandle where
  txHash : String
  deriving DecidableEq, Repr

/-- The `data` object of the stats response; `stats: {}` is the empty list of
entries. -/
structure StatsData where
  stats : List (String × Nat)
  unixFrom : Nat
  unixTo : Nat
  dataId : String
  deriving DecidableEq, Repr

/-- The record `{ status, messages, data }`. -/
structure StatsResponse where
  status : Bool
  messages : List String
  data : StatsData
  deriving DecidableEq, Repr

/-- Modelled from the spec: the shape of one transfer, which the source never
constructs (§3: recipient address, amount, source address). -/
structure Transfer where
  recipient : String
  amount : Int
  source : String
  deriving DecidableEq, Repr

/-- The record `{ arrayOfTransfers }`. -/
structure TransferArray where
  arrayOfTransfers : List Transfer
  deriving DecidableEq, Repr

/-- A plain object as the list of its own properties; `{}` is `[]`. -/
structure TransactionProof where
  entries : List (String × String)
  deriving DecidableEq, Repr

/-- The record `{ transactionProof }`. -/
structure ProofResult where
  transactionProof : TransactionProof
  deriving DecidableEq, Repr

/-- The record `{ txHash, success }`. -/
structure Broadcast where
  txHash : String
  success : Bool
  deriving DecidableEq, Repr

/-- The record `{ confirmed, failed, pending }`. -/
structure Confirmation where
  confirmed : Bool
  failed : Bool
  pending : Bool
  deriving DecidableEq, Repr

/-- The record `{ status, messages }`. -/
structure Ack where
  status : Bool
  messages : List String
  deriving DecidableEq, Repr

/-- The record `{ encryptedAmount }`. -/
structure EncryptedBalance where
  encryptedAmount : String
  deriving DecidableEq, Repr

/-- The record `{ methodId, encryptedAmount }` built by the batched query. -/
structure BalanceEntry where
  methodId : String
  encryptedAmount : String
  deriving DecidableEq, Repr

/-- The record `{ arrayOfEncryptedAmounts }`. -/
structure EncryptedBalances where
  arrayOfEncryptedAmounts : List BalanceEntry
  deriving DecidableEq, Repr

/-- The method `Array.prototype.map` with a callback that may throw: the
elements are visited in index order and the first exception ends the call. -/
def arrayMap {α β : Type} (f : α → Except JsError β) : List α → Except JsError (List β)
  | [] => .ok []
  | x :: xs =>
    match f x with
    | .error e => .error e
    | .ok y =>
      match arrayMap f xs with
      | .error e => .error e
      | .ok ys => .ok (y :: ys)

/-! ## Private implementation methods (source lines 97-199) -/

/-- The helper `#generateKeys`. -/
def generateKeys (E : Ethers) (methodId serverSecret : String) : KeyPair :=
  let combinedInput := methodId ++ serverSecret
  let privateKey := E.keccak256 (E.toUtf8Bytes combinedInput)
  let publicKey := E.computeAddress privateKey
  { privateKey := privateKey, publicKey := publicKey }

/-- The helper `#checkRegistration`. -/
def checkRegistration (_publicKey : String) : Registration :=
  let isRegistered := false
  { isRegistered := isRegistered }

/-- The helper `#registerAddressOnChain`. -/
def registerAddressOnChain (_publicKey : String) : TxHandle :=
  let txHash := "0x..."
  { txHash := txHash }

/-- The helper `#fetchStatsFromMCP`. -/
def fetchStatsFromMCP (_serverUrl _header : String) : StatsResponse :=
  let status := true
  let messages := []
  let data : StatsData := { stats := [], unixFrom := 0, unixTo := 0, dataId := "" }
  { status := status, messages := messages, data := data }

/-- The helper `#calculateTransferArray`. The types of `stats` and
`distribution` are left open: the body reads neither. -/
def calculateTransferArray {Stats Policy : Type} (_stats : Stats) (_distribution : Policy)
    (_totalAmount : Int) (_serverMainAddress : String) : TransferArray :=
  let arrayOfTransfers := []
  { arrayOfTransfers := arrayOfTransfers }

/-- The helper `#createBatchProof`. -/
def createBatchProof (_arrayOfTransfers : List Transfer) : ProofResult :=
  let transactionProof : TransactionProof := { entries := [] }
  { transactionProof := transactionProof }

/-- The helper `#broadcastTransaction`. -/
def broadcastTransaction (_transactionProof : TransactionProof) : Broadcast :=
  let txHash := "0x..."
  let success := true
  { txHash := txHash, success := success }

/-- The helper `#monitorTransaction`. -/
def monitorTransaction (_txHash : String) (_timeout : Nat) : Confirmation :=
  let confirmed := false
  let failed := false
  let pending := true
  { confirmed := confirmed, failed := failed, pending := pending }

/-- The helper `#notifyMCPFinished`. -/
def notifyMCPFinished (_serverUrl _header _dataId : String) : Ack :=
  let status := true
  let messages := []
  { status := status, messages := messages }

/-- The helper `#queryEncryptedBalance`; it reaches `#generateKeys` through
`this` and discards the derived address. -/
def queryEncryptedBalance (E : Ethers) (this : Receiver) (methodId serverSecret : String) :
    Except JsError EncryptedBalance :=
  match privateGet this with
  | .error e => .error e
  | .ok _ =>
    let _publicKey := (generateKeys E methodId serverSecret).publicKey
    let encryptedAmount := "0x..."
    .ok { encryptedAmount := encryptedAmount }

/-- The helper `#queryMultipleBalances`; the arrow function passed to `map`
sees the same `this`. -/
def queryMultipleBalances (E : Ethers) (this : Receiver) (arrayOfMethodIds : List String)
    (serverSecret : String) : Except JsError EncryptedBalances :=
  let callback := fun (methodId : String) =>
    match privateGet this with
    | .error e => Except.error e
    | .ok _ =>
      match queryEncryptedBalance E this methodId serverSecret with
      | .error e => .error e
      | .ok r => .ok ({ methodId := methodId, encryptedAmount := r.encryptedAmount } : BalanceEntry)
  match arrayMap callback arrayOfMethodIds with
  | .error e => .error e
  | .ok arrayOfEncryptedAmounts => .ok { arrayOfEncryptedAmounts := arrayOfEncryptedAmounts }

/-! ## Public static methods (source lines 6-93) -/

/-- The static method `methodIdToPrivateKey`. -/
def methodIdToPrivateKey (E : Ethers) (this : Receiver) (methodId serverSecret : String) :
    Except JsError KeyPair :=
  match privateGet this with
  | .error e => .error e
  | .ok _ =>
    let r := generateKeys E methodId serverSecret
    .ok { privateKey := r.privateKey, publicKey := r.publicKey }

/-- The static method `isRegistered`. -/
def isRegistered (this : Receiver) (publicKey : String) : Except JsError Registration :=
  match privateGet this with
  | .error e => .error e
  | .ok _ =>
    let r := checkRegistration publicKey
    .ok { isRegistered := r.isRegistered }

/-- The static method `registerAddress`. -/
def registerAddress (this : Receiver) (publicKey : String) : Except JsError TxHandle :=
  match privateGet this with
  | .error e => .error e
  | .ok _ =>
    let r := registerAddressOnChain publicKey
    .ok { txHash := r.txHash }

/-- The static method `getLatestStats`. -/
def getLatestStats (this : Receiver) (serverUrl header : String) : Except JsError StatsResponse :=
  match privateGet this with
  | .error e => .error e
  | .ok _ =>
    let r := fetchStatsFromMCP serverUrl header
    .ok { status := r.status, messages := r.messages, data := r.data }

/-- The static method `getArrayOfTransfers`. -/
def getArrayOfTransfers {Stats Policy : Type} (this : Receiver) (stats : Stats)
    (distribution : Policy) (totalAmount : Int) (serverMainAddress : String) :
    Except JsError TransferArray :=
  match privateGet this with
  | .error e => .error e
  | .ok _ =>
    let r := calculateTransferArray stats distribution totalAmount serverMainAddress
    .ok { arrayOfTransfers := r.arrayOfTransfers }

/-- The static method `generateRecursiveTransactionProof`. -/
def generateRecursiveTransactionProof (this : Receiver) (arrayOfTransfers : List Transfer) :
    Except JsError ProofResult :=
  match privateGet this with
  | .error e => .error e
  | .ok _ =>
    let r := createBatchProof arrayOfTransfers
    .ok { transactionProof := r.transactionProof }

/-- The static method `sendTransactionProof`. -/
def sendTransactionProof (this : Receiver) (transactionProof : TransactionProof) :
    Except JsError Broadcast :=
  match privateGet this with
  | .error e => .error e
  | .ok _ =>
    let r := broadcastTransaction transactionProof
    .ok { txHash := r.txHash, success := r.success }

/-- The static method `waitForConfirmation`; an omitted `timeout` (`none`)
takes the default `300000`. -/
def waitForConfirmation (this : Receiver) (txHash : String) (timeout : Option Nat) :
    Except JsError Confirmation :=
  let timeout := timeout.getD 300000
  match privateGet this with
  | .error e => .error e
  | .ok _ =>
    let r := monitorTransaction txHash timeout
    .ok { confirmed := r.confirmed, failed := r.failed, pending := r.pending }

/-- The static method `sendFinishedResponse`. -/
def sendFinishedResponse (this : Receiver) (serverUrl header dataId : String) :
    Except JsError Ack :=
  match privateGet this with
  | .error e => .error e
  | .ok _ =>
    let r := notifyMCPFinished serverUrl header dataId
    .ok { status := r.status, messages := r.messages }

/-- The static method `getEncryptedBalance`. -/
def getEncryptedBalance (E : Ethers) (this : Receiver) (methodId serverSecret : String) :
    Except JsError EncryptedBalance :=
  match privateGet this with
  | .error e => .error e
  | .ok _ =>
    match queryEncryptedBalance E this methodId serverSecret with
    | .error e => .error e
    | .ok r => .ok { encryptedAmount := r.encryptedAmount }

/-- The static method `getEncryptedBalances`. -/
def getEncryptedBalances (E : Ethers) (this : Receiver) (arrayOfMethodIds : List String)
    (serverSecret : String) : Except JsError EncryptedBalances :=
  match privateGet this with
  | .error e => .error e
  | .ok _ =>
    match queryMultipleBalances E this arrayOfMethodIds serverSecret with
    | .error e => .error e
    | .ok r => .ok { arrayOfEncryptedAmounts := r.arrayOfEncryptedAmounts }

/-- The static method `health` (the console output is not modelled); it
touches no private name. -/
def health (_this : Receiver) : Except JsError Bool :=
  .ok true

/-! ## Vocabulary of the properties -/

/-- A concrete stand-in for the library, used only to evaluate the
definitions at concrete inputs. Its three functions are placeholders (character
codes, their characters again, a tagged copy), not the real encoder, hash and
address derivation; every general theorem below holds for every `Ethers`. -/
def sampleEthers : Ethers where
  toUtf8Bytes := fun s => s.data.map Char.toNat
  keccak256 := fun bs => String.mk ('0' :: 'x' :: bs.map Char.ofNat)
  computeAddress := fun k => String.mk ('@' :: k.data)

/-- The reference definition of key derivation (§4.1, §3): the private key is
the hash of the UTF-8 bytes of the identifier followed by the secret, and the
address is derived from that private key. -/
def referenceDerivation (E : Ethers) (identifier secret : String) : KeyPair :=
  { privateKey := E.keccak256 (E.toUtf8Bytes (identifier ++ secret)),
    publicKey := E.computeAddress (E.keccak256 (E.toUtf8Bytes (identifier ++ secret))) }

/-- The sum of the amounts of a batch of transfers. -/
def sumOfAmounts (transfers : List Transfer) : Int :=
  (transfers.map (fun t => t.amount)).sum

/-- The malformed batches of §4.5: the empty batch, a batch with a
non-positive amount, a batch that names a recipient twice. -/
def malformedBatch (transfers : List Transfer) : Prop :=
  transfers = [] ∨ (∃ t ∈ transfers, t.amount ≤ 0) ∨
    ¬ (transfers.map (fun t => t.recipient)).Nodup

instance (transfers : List Transfer) : Decidable (malformedBatch transfers) := by
  unfold malformedBatch
  exact inferInstance

/-- The result is a thrown error of the given name. -/
def failsWith {α : Type} (r : Except JsError α) (errorName : String) : Prop :=
  ∃ e, r = .error e ∧ e.name = errorName

/-! ## Shared lemmas -/

theorem privateGet_of_hasBrand {this : Receiver} (h : this.hasBrand = true) :
    privateGet this = .ok () := by
  simp [privateGet, h]

theorem privateGet_classConstructor : privateGet .classConstructor = .error .typeError := rfl

theorem arrayMap_of_total {α β : Type} (f : α → Except JsError β) (g : α → β)
    (hf : ∀ x, f x = .ok (g x)) (xs : List α) : arrayMap f xs = .ok (xs.map g) := by
  induction xs with
  | nil => rfl
  | cons x xs ih => simp [arrayMap, hf, ih]

theorem queryEncryptedBalance_of_hasBrand (E : Ethers) {this : Receiver}
    (h : this.hasBrand = true) (methodId serverSecret : String) :
    queryEncryptedBalance E this methodId serverSecret = .ok { encryptedAmount := "0x..." } := by
  simp [queryEncryptedBalance, privateGet_of_hasBrand h]

theorem getEncryptedBalance_of_hasBrand (E : Ethers) {this : Receiver}
    (h : this.hasBrand = true) (methodId serverSecret : String) :
    getEncryptedBalance E this methodId serverSecret = .ok { encryptedAmount := "0x..." } := by
  simp [getEncryptedBalance, privateGet_of_hasBrand h, queryEncryptedBalance_of_hasBrand E h]

theorem getEncryptedBalances_of_hasBrand (E : Ethers) {this : Receiver}
    (h : this.hasBrand = true) (arrayOfMethodIds : List String) (serverSecret : String) :
    getEncryptedBalances E this arrayOfMethodIds serverSecret =
      .ok { arrayOfEncryptedAmounts :=
        arrayOfMethodIds.map (fun methodId =>
          ({ methodId := methodId, encryptedAmount := "0x..." } : BalanceEntry)) } := by
  have hmap := arrayMap_of_total
    (fun (methodId : String) =>
      match privateGet this with
      | .error e => Except.error e
      | .ok _ =>
        match queryEncryptedBalance E this methodId serverSecret with
        | .error e => .error e
        | .ok r => .ok ({ methodId := methodId, encryptedAmount := r.encryptedAmount } : BalanceEntry))
    (fun methodId => ({ methodId := methodId, encryptedAmount := "0x..." } : BalanceEntry))
    (by
      intro x
      simp [privateGet_of_hasBrand h, queryEncryptedBalance_of_hasBrand E h])
    arrayOfMethodIds
  simp only [privateGet_of_hasBrand h] at hmap
  simp only [getEncryptedBalances, queryMultipleBalances, privateGet_of_hasBrand h, hmap]

/-! ## Key derivation -/

/-- C1 fails on the code. Called as written, `PrivateShare.methodIdToPrivateKey`
runs with the class constructor as receiver, and each of two calls with the
same `methodId` and `serverSecret` throws a `TypeError` at the lookup
`this.#generateKeys`: no `privateKey` and no `publicKey` is returned. The
derivation the code means to reach is deterministic: on an instance receiver
every call returns the pair `#generateKeys` computes from the two inputs. -/
theorem methodIdToPrivateKey_static_returns_no_keys (E : Ethers)
    (methodId serverSecret : String) (id₁ id₂ : Nat) :
    methodIdToPrivateKey E .classConstructor methodId serverSecret = .error .typeError ∧
      (¬ ∃ keys : KeyPair,
        methodIdToPrivateKey E .classConstructor methodId serverSecret = .ok keys) ∧
      methodIdToPrivateKey E (.classInstance id₁) methodId serverSecret =
        .ok (generateKeys E methodId serverSecret) ∧
      methodIdToPrivateKey E (.classInstance id₂) methodId serverSecret =
        .ok (generateKeys E methodId serverSecret) := by
  refine ⟨rfl, ?_, rfl, rfl⟩
  rintro ⟨keys, hkeys⟩
  simp [methodIdToPrivateKey, privateGet, Receiver.hasBrand] at hkeys

/-- C2, as the claim states it, fails: with an empty `methodId`, an empty
`serverSecret`, or both, the derivation returns a key pair and no
`DerivationError` is thrown. -/
theorem methodIdToPrivateKey_empty_counterexample :
    methodIdToPrivateKey sampleEthers (.classInstance 0) "" "" =
        .ok { privateKey := "0x", publicKey := "@0x" } ∧
      ¬ failsWith (methodIdToPrivateKey sampleEthers (.classInstance 0) "" "") "DerivationError" ∧
      ¬ failsWith (methodIdToPrivateKey sampleEthers (.classInstance 0) "" "s") "DerivationError" ∧
      ¬ failsWith (methodIdToPrivateKey sampleEthers (.classInstance 0) "m" "") "DerivationError" := by
  refine ⟨rfl, ?_, ?_, ?_⟩ <;>
    · rintro ⟨e, he, _⟩
      simp [methodIdToPrivateKey, privateGet, Receiver.hasBrand] at he

/-- C2, amended. Key derivation has no emptiness check: for every `methodId`
and `serverSecret`, the empty string included, the derivation, once its helper
is reached, returns the key pair of the reference definition at those inputs,
and so does not fail with a `DerivationError`. -/
theorem methodIdToPrivateKey_empty_returns (E : Ethers) (this : Receiver)
    (h : this.hasBrand = true) (methodId serverSecret : String) :
    methodIdToPrivateKey E this methodId serverSecret =
        .ok (referenceDerivation E methodId serverSecret) ∧
      ¬ failsWith (methodIdToPrivateKey E this methodId serverSecret) "DerivationError" := by
  have hret : methodIdToPrivateKey E this methodId serverSecret =
      .ok (referenceDerivation E methodId serverSecret) := by
    simp [methodIdToPrivateKey, privateGet_of_hasBrand h, generateKeys, referenceDerivation]
  refine ⟨hret, ?_⟩
  rintro ⟨e, he, _⟩
  rw [hret] at he
  cases he

theorem methodIdToPrivateKey_empty_returns_witness :
    methodIdToPrivateKey sampleEthers (.classInstance 0) "" "s" =
        .ok (referenceDerivation sampleEthers "" "s") ∧
      ¬ failsWith (methodIdToPrivateKey sampleEthers (.classInstance 0) "" "s") "DerivationError" :=
  methodIdToPrivateKey_empty_returns sampleEthers (.classInstance 0) rfl "" "s"

/-- C3. Key derivation equals its reference definition: `#generateKeys`
returns `privateKey = keccak256(toUtf8Bytes(methodId + serverSecret))` and
`publicKey = computeAddress(privateKey)` for that same private key, and
`methodIdToPrivateKey` hands that pair on unchanged whenever it reaches the
helper. -/
theorem generateKeys_eq_referenceDerivation (E : Ethers) (this : Receiver)
    (h : this.hasBrand = true) (methodId serverSecret : String) :
    generateKeys E methodId serverSecret = referenceDerivation E methodId serverSecret ∧
      (generateKeys E methodId serverSecret).privateKey =
        E.keccak256 (E.toUtf8Bytes (methodId ++ serverSecret)) ∧
      (generateKeys E methodId serverSecret).publicKey =
        E.computeAddress (generateKeys E methodId serverSecret).privateKey ∧
      methodIdToPrivateKey E this methodId serverSecret =
        .ok (referenceDerivation E methodId serverSecret) := by
  refine ⟨rfl, rfl, rfl, ?_⟩
  simp [methodIdToPrivateKey, privateGet_of_hasBrand h, generateKeys, referenceDerivation]

theorem generateKeys_eq_referenceDerivation_witness :
    generateKeys sampleEthers "ab" "c" = referenceDerivation sampleEthers "ab" "c" ∧
      (generateKeys sampleEthers "ab" "c").privateKey =
        sampleEthers.keccak256 (sampleEthers.toUtf8Bytes ("ab" ++ "c")) ∧
      (generateKeys sampleEthers "ab" "c").publicKey =
        sampleEthers.computeAddress (generateKeys sampleEthers "ab" "c").privateKey ∧
      methodIdToPrivateKey sampleEthers (.classInstance 7) "ab" "c" =
        .ok (referenceDerivation sampleEthers "ab" "c") :=
  generateKeys_eq_referenceDerivation sampleEthers (.classInstance 7) rfl "ab" "c"

/-- C9. Derivation depends only on the concatenation of its inputs: two pairs
with `methodId₁ + serverSecret₁ = methodId₂ + serverSecret₂` give the same
value of `#generateKeys`, and `methodIdToPrivateKey` has the same outcome for
both on every receiver. -/
theorem methodIdToPrivateKey_concat (E : Ethers) (methodId₁ serverSecret₁ methodId₂
    serverSecret₂ : String) (hcat : methodId₁ ++ serverSecret₁ = methodId₂ ++ serverSecret₂) :
    generateKeys E methodId₁ serverSecret₁ = generateKeys E methodId₂ serverSecret₂ ∧
      ∀ this : Receiver,
        methodIdToPrivateKey E this methodId₁ serverSecret₁ =
          methodIdToPrivateKey E this methodId₂ serverSecret₂ := by
  have hkeys : generateKeys E methodId₁ serverSecret₁ = generateKeys E methodId₂ serverSecret₂ := by
    simp only [generateKeys, hcat]
  refine ⟨hkeys, fun this => ?_⟩
  simp only [methodIdToPrivateKey, hkeys]

theorem methodIdToPrivateKey_concat_witness :
    "ab" ≠ "a" ∧ "ab" ++ "c" = "a" ++ "bc" ∧
      generateKeys sampleEthers "ab" "c" = generateKeys sampleEthers "a" "bc" ∧
      ∀ this : Receiver,
        methodIdToPrivateKey sampleEthers this "ab" "c" =
          methodIdToPrivateKey sampleEthers this "a" "bc" :=
  ⟨by decide, by decide, methodIdToPrivateKey_concat sampleEthers "ab" "c" "a" "bc" (by decide)⟩

/-! ## Distribution and batch proof -/

/-- C4, as the claim states it, fails: for identifiers A (usage 1) and B
(usage 3), the linear weight and `totalAmount = 100`, the returned
`arrayOfTransfers` is empty and its amounts sum to 0, not to 100. -/
theorem getArrayOfTransfers_sum_counterexample :
    ∃ r : TransferArray,
      getArrayOfTransfers (.classInstance 0) [("A", 1), ("B", 3)] (fun usage : Nat => usage)
        100 "0xMain" = .ok r ∧
      r.arrayOfTransfers = [] ∧ sumOfAmounts r.arrayOfTransfers = 0 ∧
      sumOfAmounts r.arrayOfTransfers ≠ 100 :=
  ⟨{ arrayOfTransfers := [] }, rfl, rfl, rfl, by decide⟩

/-- C4, amended. For every stats snapshot, distribution policy, `totalAmount`
and `serverMainAddress`, `getArrayOfTransfers`, once its helper is reached,
returns the empty `arrayOfTransfers`; the sum of its amounts is 0, which equals
`totalAmount` exactly when `totalAmount = 0`. -/
theorem getArrayOfTransfers_empty {Stats Policy : Type} (this : Receiver)
    (h : this.hasBrand = true) (stats : Stats) (distribution : Policy) (totalAmount : Int)
    (serverMainAddress : String) :
    ∃ r : TransferArray,
      getArrayOfTransfers this stats distribution totalAmount serverMainAddress = .ok r ∧
      r.arrayOfTransfers = [] ∧ sumOfAmounts r.arrayOfTransfers = 0 ∧
      (sumOfAmounts r.arrayOfTransfers = totalAmount ↔ totalAmount = 0) := by
  refine ⟨{ arrayOfTransfers := [] }, ?_, rfl, rfl, ?_⟩
  · simp [getArrayOfTransfers, privateGet_of_hasBrand h, calculateTransferArray]
  · simp [sumOfAmounts, eq_comm]

theorem getArrayOfTransfers_empty_witness :
    ∃ r : TransferArray,
      getArrayOfTransfers (.classInstance 0) [("A", 1), ("B", 3)] (fun usage : Nat => usage)
        100 "0xMain" = .ok r ∧
      r.arrayOfTransfers = [] ∧ sumOfAmounts r.arrayOfTransfers = 0 ∧
      (sumOfAmounts r.arrayOfTransfers = 100 ↔ (100 : Int) = 0) :=
  getArrayOfTransfers_empty (.classInstance 0) rfl [("A", 1), ("B", 3)]
    (fun usage : Nat => usage) 100 "0xMain"

/-- C6, as the claim states it, fails: the empty batch, a batch with a
non-positive amount and a batch naming one recipient twice are malformed, and
for each of them a `transactionProof` is returned and no
`ProofConstructionError` is thrown. -/
theorem generateRecursiveTransactionProof_counterexample :
    (malformedBatch [] ∧
      generateRecursiveTransactionProof (.classInstance 0) [] =
        .ok { transactionProof := { entries := [] } }) ∧
    (malformedBatch [{ recipient := "0xA", amount := 0, source := "0xMain" }] ∧
      generateRecursiveTransactionProof (.classInstance 0)
        [{ recipient := "0xA", amount := 0, source := "0xMain" }] =
        .ok { transactionProof := { entries := [] } }) ∧
    (malformedBatch [{ recipient := "0xA", amount := 5, source := "0xMain" },
        { recipient := "0xA", amount := 7, source := "0xMain" }] ∧
      generateRecursiveTransactionProof (.classInstance 0)
        [{ recipient := "0xA", amount := 5, source := "0xMain" },
          { recipient := "0xA", amount := 7, source := "0xMain" }] =
        .ok { transactionProof := { entries := [] } }) ∧
    ¬ failsWith (generateRecursiveTransactionProof (.classInstance 0) [])
        "ProofConstructionError" := by
  refine ⟨⟨by decide, rfl⟩, ⟨by decide, rfl⟩, ⟨by decide, rfl⟩, ?_⟩
  rintro ⟨e, he, _⟩
  simp [generateRecursiveTransactionProof, privateGet, Receiver.hasBrand] at he

/-- C6, amended. Batch proof construction does not inspect the batch: for
every `arrayOfTransfers`, the malformed ones included,
`generateRecursiveTransactionProof`, once its helper is reached, returns the
placeholder `transactionProof` `{}` and does not fail with a
`ProofConstructionError`. -/
theorem generateRecursiveTransactionProof_placeholder (this : Receiver)
    (h : this.hasBrand = true) (arrayOfTransfers : List Transfer) :
    generateRecursiveTransactionProof this arrayOfTransfers =
        .ok { transactionProof := { entries := [] } } ∧
      ¬ failsWith (generateRecursiveTransactionProof this arrayOfTransfers)
        "ProofConstructionError" := by
  have hret : generateRecursiveTransactionProof this arrayOfTransfers =
      .ok { transactionProof := { entries := [] } } := by
    simp [generateRecursiveTransactionProof, privateGet_of_hasBrand h, createBatchProof]
  refine ⟨hret, ?_⟩
  rintro ⟨e, he, _⟩
  rw [hret] at he
  cases he

theorem generateRecursiveTransactionProof_placeholder_witness :
    generateRecursiveTransactionProof (.classInstance 0)
        [{ recipient := "0xA", amount := -3, source := "0xMain" }] =
        .ok { transactionProof := { entries := [] } } ∧
      ¬ failsWith (generateRecursiveTransactionProof (.classInstance 0)
        [{ recipient := "0xA", amount := -3, source := "0xMain" }]) "ProofConstructionError" :=
  generateRecursiveTransactionProof_placeholder (.classInstance 0) rfl
    [{ recipient := "0xA", amount := -3, source := "0xMain" }]

/-! ## Confirmation and registration -/

/-- C5 fails on the code. Called as written, `PrivateShare.waitForConfirmation`
runs with the class constructor as receiver and throws a `TypeError` at the
lookup `this.#monitorTransaction`, for every `txHash` and every `timeout`
(given or defaulted): no `pending` record is returned. The monitor the code
means to reach consults no ledger and answers `pending = true`,
`confirmed = false`, `failed = false`, which is what an instance receiver
gets. -/
theorem waitForConfirmation_static_returns_no_state (txHash : String) (timeout : Option Nat)
    (id : Nat) :
    waitForConfirmation .classConstructor txHash timeout = .error .typeError ∧
      (¬ ∃ r : Confirmation, waitForConfirmation .classConstructor txHash timeout = .ok r) ∧
      monitorTransaction txHash (timeout.getD 300000) =
        { confirmed := false, failed := false, pending := true } ∧
      waitForConfirmation (.classInstance id) txHash timeout =
        .ok { confirmed := false, failed := false, pending := true } := by
  refine ⟨rfl, ?_, rfl, rfl⟩
  rintro ⟨r, hr⟩
  simp [waitForConfirmation, privateGet, Receiver.hasBrand] at hr

/-- C7 fails on the code. Called as written, `PrivateShare.registerAddress`
runs with the class constructor as receiver and throws a `TypeError` at the
lookup `this.#registerAddressOnChain`, on the first call and on the second: no
`txHash` handle is returned by either. The helper the code means to reach
returns the constant handle `'0x...'`, which is what every call on an instance
receiver gets. -/
theorem registerAddress_static_returns_no_handle (publicKey : String) (id₁ id₂ : Nat) :
    registerAddress .classConstructor publicKey = .error .typeError ∧
      (¬ ∃ handle : TxHandle, registerAddress .classConstructor publicKey = .ok handle) ∧
      registerAddress (.classInstance id₁) publicKey = .ok { txHash := "0x..." } ∧
      registerAddress (.classInstance id₂) publicKey = .ok { txHash := "0x..." } := by
  refine ⟨rfl, ?_, rfl, rfl⟩
  rintro ⟨handle, hhandle⟩
  simp [registerAddress, privateGet, Receiver.hasBrand] at hhandle

/-! ## Balance queries -/

/-- C10 fails on the code. Called as written, `PrivateShare.getEncryptedBalances`
runs with the class constructor as receiver and throws a `TypeError` at the
lookup `this.#queryMultipleBalances`, for every list, the empty list included:
no `arrayOfEncryptedAmounts` is returned, and `getEncryptedBalance` throws
likewise. The map the code means to reach is pointwise and order-preserving:
on an instance receiver the result lists, for each identifier in turn, that
identifier with the `encryptedAmount` of the single query. -/
theorem getEncryptedBalances_static_returns_no_list (E : Ethers)
    (arrayOfMethodIds : List String) (methodId serverSecret : String) (id : Nat) :
    getEncryptedBalances E .classConstructor arrayOfMethodIds serverSecret = .error .typeError ∧
      getEncryptedBalances E .classConstructor [] serverSecret = .error .typeError ∧
      getEncryptedBalance E .classConstructor methodId serverSecret = .error .typeError ∧
      getEncryptedBalance E (.classInstance id) methodId serverSecret =
        .ok { encryptedAmount := "0x..." } ∧
      getEncryptedBalances E (.classInstance id) arrayOfMethodIds serverSecret =
        .ok { arrayOfEncryptedAmounts :=
          arrayOfMethodIds.map (fun m =>
            ({ methodId := m, encryptedAmount := "0x..." } : BalanceEntry)) } :=
  have hbrand : (Receiver.classInstance id).hasBrand = true := rfl
  ⟨rfl, rfl, rfl, getEncryptedBalance_of_hasBrand E hbrand methodId serverSecret,
    getEncryptedBalances_of_hasBrand E hbrand arrayOfMethodIds serverSecret⟩

/-! ## Static dispatch -/

/-- C8 fails on the code. Called as written, `PrivateShare.method(...)`, the
receiver is the class constructor, which does not carry the instance-private
helpers: every static operation that delegates to a helper throws a
`TypeError` at the lookup `this.#helper` and returns nothing, for all
arguments; only `health`, which touches no private name, completes. -/
theorem static_call_throws_typeError (E : Ethers) (methodId serverSecret publicKey serverUrl
    header dataId txHash serverMainAddress : String) (timeout : Option Nat)
    (totalAmount : Int) (arrayOfTransfers : List Transfer) (transactionProof : TransactionProof)
    (arrayOfMethodIds : List String) {Stats Policy : Type} (stats : Stats)
    (distribution : Policy) :
    methodIdToPrivateKey E .classConstructor methodId serverSecret = .error .typeError ∧
    isRegistered .classConstructor publicKey = .error .typeError ∧
    registerAddress .classConstructor publicKey = .error .typeError ∧
    getLatestStats .classConstructor serverUrl header = .error .typeError ∧
    getArrayOfTransfers .classConstructor stats distribution totalAmount serverMainAddress =
      .error .typeError ∧
    generateRecursiveTransactionProof .classConstructor arrayOfTransfers = .error .typeError ∧
    sendTransactionProof .classConstructor transactionProof = .error .typeError ∧
    waitForConfirmation .classConstructor txHash timeout = .error .typeError ∧
    sendFinishedResponse .classConstructor serverUrl header dataId = .error .typeError ∧
    getEncryptedBalance E .classConstructor methodId serverSecret = .error .typeError ∧
    getEncryptedBalances E .classConstructor arrayOfMethodIds serverSecret = .error .typeError ∧
    health .classConstructor = .ok true :=
  ⟨rfl, rfl, rfl, rfl, rfl, rfl, rfl, rfl, rfl, rfl, rfl, rfl⟩

end PrivateShare
